import Mathlib

/-!
Verification development for the CheckDP repository.

Each Python component relevant to the frozen claims is shallowly embedded as
executable Lean definitions, translated directly from the source files:

* `checkdp/core.py`                 — the CEGIS refinement loop (`Core` namespace)
* `checkdp/transform/base.py`       — the type-directed transformer
* `checkdp/transform/utils.py`      — distance generator, divergence check
* `checkdp/transform/preprocess.py` — annotation checks and LCM scaling
* `checkdp/transform/postprocess.py`— sample-array size computation
* `checkdp/transform/random_distance.py` — alignment-template generation
* `checkdp/transform/template.py`   — driver template helpers

The repository imports `checkdp.transform.constants` and
`checkdp.transform.typesystem`, whose source files are not part of the
checked-out tree; where needed they are modelled from the specification
(marked `Modelled from the spec:` below).
-/

namespace CheckDP

namespace Core

/-- State of the CEGIS loop of `core.run` (core.py lines 10-21): the
accumulated counterexample models, the candidate alignment models, and the
three Boolean flags `is_find_inputs`, `is_final_validate`, `is_jump_out`.
The type `M` of solver models is abstract. -/
structure CoreState (M : Type) where
  foundCounterexamples : List M
  possibleAlignments : List M
  isFindInputs : Bool
  isFinalValidate : Bool
  isJumpOut : Bool

/-- Result of one iteration of the `while True` loop in `core.run`: either the
loop continues with an updated state, or it returns `(True, concretes)`
(modelled as `proved`), or it breaks out to the counterexample phase which
returns `(False, ...)` (modelled as `refuted`, carrying the counterexample
list from which `found_counterexamples[-1]` is then taken). -/
inductive StepOutcome (M : Type) where
  | next (s : CoreState M)
  | proved (alignments : List M)
  | refuted (counterexamples : List M)

/-- Concretes chosen at the top of each iteration (core.py lines 25-27):
the list opposite to the search object, restricted to its last element when
`is_final_validate` holds and `is_jump_out` does not.  (Python indexes
`concretes[-1]`, which presupposes a non-empty list; the empty case returns
`[]` here and is unreachable from the initial state.) -/
def concretesOf {M : Type} (s : CoreState M) : List M :=
  let c := if s.isFindInputs then s.possibleAlignments else s.foundCounterexamples
  if s.isFinalValidate && !s.isJumpOut then
    match c.getLast? with
    | some x => [x]
    | none => []
  else c

/-- Initial CEGIS state (core.py lines 10-21): no counterexamples, a single
default alignment, searching inputs first, no final validation, no jump-out. -/
def initState {M : Type} (defaultAlignment : M) : CoreState M :=
  { foundCounterexamples := []
    possibleAlignments := [defaultAlignment]
    isFindInputs := true
    isFinalValidate := false
    isJumpOut := false }

/-- One iteration of the CEGIS loop body (core.py lines 55-98), given the
symbolic-executor outcome `result` (`some model` or `none`).  The four cases
follow the source comments at lines 50-54; the final `is_find_inputs` flip at
line 93 is folded into each `next` state. -/
def coreStep {M : Type} (result : Option M) (s : CoreState M) : StepOutcome M :=
  if s.isFindInputs then
    match result with
    | some r =>
      -- found a counterexample, append to list and go to next iteration
      .next { s with
        foundCounterexamples := s.foundCounterexamples ++ [r]
        isJumpOut := false
        isFindInputs := false }
    | none =>
      -- cannot find counterexample: return (True, concretes)
      .proved (concretesOf s)
  else
    match result with
    | some r =>
      if s.isFinalValidate then
        -- counterexample does not pass final validation: keep the alignment,
        -- wipe counterexamples, leave final validation, set jump-out
        .next { s with
          possibleAlignments := s.possibleAlignments ++ [r]
          foundCounterexamples := []
          isFinalValidate := false
          isJumpOut := true
          isFindInputs := true }
      else
        -- better alignment found: replace the last alignment
        .next { s with
          possibleAlignments := s.possibleAlignments.dropLast ++ [r]
          isFindInputs := true }
    | none =>
      if s.isFinalValidate then
        -- counterexample passes final validation: break out of the loop
        .refuted s.foundCounterexamples
      else
        -- escalate to final validation; the double flag flip at lines 89/93
        -- leaves is_find_inputs false for the next iteration
        .next { s with
          isFinalValidate := true
          isFindInputs := false }

/-- States reachable by the CEGIS loop of `core.run` from its initial state. -/
inductive Reachable {M : Type} (defaultAlignment : M) : CoreState M → Prop where
  | init : Reachable defaultAlignment (initState defaultAlignment)
  | step {s s' : CoreState M} {r : Option M} :
      Reachable defaultAlignment s → coreStep r s = .next s' →
      Reachable defaultAlignment s'

end Core

namespace Constants

/-- Modelled from the spec: checkdp/transform/constants.py is imported by every
transform module but is not in the checked-out tree.  Spec section 6 fixes the
reserved prefix scheme ("Reserved-name prefix for internally generated
identifiers (e.g. aligned_, shadow_, sample_array, alignment_array,
symbolic_cost, v_epsilon, sample_index)"); the test-suite shows the prefix is
CHECKDP (CHECKDP_OUTPUT appears in tests/transform/test_preprocessor.py).
Only distinctness of these names matters for the claims below. -/
def PREFIX : String := "CHECKDP"

def ALIGNED_DISTANCE : String := "CHECKDP_ALIGNED_DISTANCE"

def SHADOW_DISTANCE : String := "CHECKDP_SHADOW_DISTANCE"

def SAMPLE_ARRAY : String := "CHECKDP_SAMPLE_ARRAY"

def SAMPLE_INDEX : String := "CHECKDP_SAMPLE_INDEX"

def ALIGNMENT_ARRAY : String := "CHECKDP_ALIGNMENT_ARRAY"

def RANDOM_DISTANCE : String := "CHECKDP_RANDOM_DISTANCE"

def SELECTOR : String := "CHECKDP_SELECTOR"

def V_EPSILON : String := "CHECKDP_v_epsilon"

def HOLE : String := "CHECKDP_HOLE"

def CHECKDP_ASSERT : String := "CHECKDP_ASSERT"

def CHECKDP_OUTPUT : String := "CHECKDP_OUTPUT"

/-- Modelled from the spec: the per-sample selector switches between aligned
and shadow mode (spec glossary); template.py compares alignment-array slots
against SELECT_ALIGNED and SELECT_SHADOW as numeric bounds, so they are two
distinct integers with SELECT_ALIGNED below SELECT_SHADOW. -/
def SELECT_ALIGNED : Int := 0

def SELECT_SHADOW : Int := 1

end Constants

namespace Template

/-- Values carried by a concrete model map: KLEE models bind a symbolic name
either to an integer or to a sequence of integers (spec section 3,
"Concretes"). -/
inductive InputValue where
  | scalar (n : Int)
  | array (xs : List Int)
deriving DecidableEq

/-- Concrete model maps (Python dicts from name to value) are embedded as
association lists keyed by the symbolic name. -/
abbrev InputMap := List (String × InputValue)

/-- Dictionary lookup on the association-list embedding of a Python dict. -/
def lookupInput (m : InputMap) (k : String) : Option InputValue :=
  (m.find? (fun p => p.1 == k)).map Prod.snd

/-- Embedding of `Template.related_inputs` (template.py lines 115-120): copy
the counterexample map and replace the query entry by the elementwise sum of
the query array and the aligned distance array of the query.  The Python code
raises when either entry is missing or not a sequence; those cases are `none`
here. -/
def relatedInputs (queryVar : String) (m : InputMap) : Option InputMap :=
  match lookupInput m queryVar,
        lookupInput m (Constants.ALIGNED_DISTANCE ++ "_" ++ queryVar) with
  | some (.array q), some (.array dq) =>
      some (m.map fun p =>
        if p.1 == queryVar then (p.1, .array (List.zipWith (fun x y => x + y) q dq)) else p)
  | _, _ => none

end Template

namespace Preprocess

/-- Embedding of the parameter-annotation sanity check in
`Preprocessor.visit_FuncDef` (preprocess.py lines 119-130): the annotated
names and the parameter names are compared as sets; annotations for
non-parameters are rejected first, then missing parameter annotations. -/
def checkParameterAnnotations (annotated parameters : Finset String) :
    Except String Unit :=
  let extraAnnotated := annotated \ parameters
  if 0 < extraAnnotated.card then
    .error "Distance annotation can only contain parameters"
  else
    let missingAnnotated := parameters \ annotated
    if 0 < missingAnnotated.card then
      .error "Distance annotation for parameter is not given"
    else
      .ok ()

end Preprocess

namespace Transform

/-- Modelled from the spec: checkdp/transform/typesystem.py is not in the
checked-out tree.  Spec section 3 describes the type environment as a mapping
from variable name to a record containing the aligned distance, the shadow
distance (each one of the strings "0", "*", or a symbolic expression), the
base type and an is-array flag. -/
structure VarInfo where
  aligned : String
  shadow : String
  base : String
  isArray : Bool
deriving DecidableEq

/-- Modelled from the spec: the type environment, embedded as an association
list from variable name to its record (insertion ordered, as a Python dict). -/
abbrev TypeSystem := List (String × VarInfo)

/-- Lookup in the type environment (`TypeSystem.get_types`); names that were
never recorded behave as statically-zero ints, which is unreachable for the
programs the preprocessor admits. -/
def getTypes (ts : TypeSystem) (name : String) : VarInfo :=
  ((ts.find? (fun p => p.1 == name)).map Prod.snd).getD ⟨"0", "0", "int", false⟩

/-- Update of the two distance tracks of a name (`TypeSystem.update_distance`),
keeping the base type; a new name is appended with base type int. -/
def updateDistance (ts : TypeSystem) (name aligned shadow : String) : TypeSystem :=
  if (ts.find? (fun p => p.1 == name)).isSome then
    ts.map fun p =>
      if p.1 == name then (p.1, { p.2 with aligned := aligned, shadow := shadow }) else p
  else
    ts ++ [(name, ⟨aligned, shadow, "int", false⟩)]

/-- Modelled from the spec: per-track merge — the merged track is "*" if the
two sides differ or either side is "*", else the common value (spec section 3,
Invariants). -/
def mergeTrack (d1 d2 : String) : String :=
  if d1 == d2 then d1 else "*"

/-- Merge of two variable records, track by track. -/
def mergeVar (v1 v2 : VarInfo) : VarInfo :=
  { v1 with aligned := mergeTrack v1.aligned v2.aligned,
            shadow := mergeTrack v1.shadow v2.shadow }

/-- Modelled from the spec: environment merge (`TypeSystem.merge`); names
present on both sides are merged per track, one-sided names are kept. -/
def mergeTS (a b : TypeSystem) : TypeSystem :=
  (a.map fun p =>
    match b.find? (fun q => q.1 == p.1) with
    | some q => (p.1, mergeVar p.2 q.2)
    | none => p) ++
  b.filter (fun q => (a.find? (fun p => p.1 == q.1)).isNone)

/-- Expressions of the supported C subset (pycparser nodes reachable in the
transformer): integer constants, identifiers, array references, binary and
unary operations.  `distRef` stands for the AST of a parsed distance string
(the `parse(distance)` nodes the instrumentation inserts). -/
inductive CExpr where
  | const (n : Int)
  | evar (name : String)
  | arrRef (name : String) (sub : CExpr)
  | binOp (op : String) (l r : CExpr)
  | unOp (op : String) (e : CExpr)
  | distRef (dist : String)
deriving DecidableEq

/-- Pretty printer standing for pycparser's `generate` (c_generator.CGenerator);
only used to build the distance strings, whose exact spelling never equals the
literal "0" unless the printed node is the constant 0. -/
def printExpr : CExpr → String
  | .const n => toString n
  | .evar x => x
  | .arrRef a sub => a ++ "[" ++ printExpr sub ++ "]"
  | .binOp op l r => printExpr l ++ " " ++ op ++ " " ++ printExpr r
  | .unOp op e => op ++ printExpr e
  | .distRef s => s

/-- Identifier occurrences in an expression, in traversal order: the embedding
of `NodeFinder(lambda node: isinstance(node, c_ast.ID))` — an array reference
contributes its name (an ID child in pycparser) and the identifiers of its
subscript. -/
def exprIds : CExpr → List String
  | .const _ => []
  | .evar n => [n]
  | .arrRef n sub => n :: exprIds sub
  | .binOp _ l r => exprIds l ++ exprIds r
  | .unOp _ e => exprIds e
  | .distRef _ => []

/-- Embedding of `is_divergent` (transform/utils.py lines 42-49) restricted to
one track: the condition mentions an identifier whose distance on that track
is "*". -/
def isDivergentTrack (track : VarInfo → String) (ts : TypeSystem) (cond : CExpr) : Bool :=
  (exprIds cond).any fun n => track (getTypes ts n) == "*"

/-- Aligned-track divergence, `is_divergent(types, cond)[0]`. -/
def isAlignedDivergent (ts : TypeSystem) (cond : CExpr) : Bool :=
  isDivergentTrack VarInfo.aligned ts cond

/-- Shadow-track divergence, `is_divergent(types, cond)[1]`. -/
def isShadowDivergent (ts : TypeSystem) (cond : CExpr) : Bool :=
  isDivergentTrack VarInfo.shadow ts cond

/-- Embedding of `DistanceGenerator` (transform/utils.py lines 120-159): the
pair of aligned/shadow distance strings of an expression.  `simpf` stands for
`try_simplify` (a call into sympy's `simplify`; the claims below never depend
on a particular simplifier, so it is a parameter).  `none` models the
`NotImplementedError` raised on unsupported shapes. -/
def distPair (simpf : String → String) (ts : TypeSystem) : CExpr → Option (String × String)
  | .const _ => some ("0", "0")
  | .unOp _ (.const _) => some ("0", "0")
  | .unOp _ _ => none
  | .evar n =>
      let v := getTypes ts n
      some
        (if v.aligned == "*" then
          "(" ++ Constants.ALIGNED_DISTANCE ++ "_" ++ n ++ ")" else v.aligned,
         if v.shadow == "*" then
          "(" ++ Constants.SHADOW_DISTANCE ++ "_" ++ n ++ ")" else v.shadow)
  | .arrRef n sub =>
      let v := getTypes ts n
      some
        (if v.aligned == "*" then
          "(" ++ Constants.ALIGNED_DISTANCE ++ "_" ++ n ++ "[" ++ printExpr sub ++ "])"
         else v.aligned,
         if v.shadow == "*" then
          "(" ++ Constants.SHADOW_DISTANCE ++ "_" ++ n ++ "[" ++ printExpr sub ++ "])"
         else v.shadow)
  | .binOp op l r => do
      let (la, ls) ← distPair simpf ts l
      let (ra, rs) ← distPair simpf ts r
      some (simpf (la ++ " " ++ op ++ " " ++ ra), simpf (ls ++ " " ++ op ++ " " ++ rs))
  | .distRef _ => none

/-- Embedding of `ExpressionReplacer._replace` (transform/utils.py lines
81-96): an identifier or array reference becomes itself plus its distance
(variable, parsed expression, or unchanged when the distance is "0"). -/
def replaceVar (ts : TypeSystem) (isAligned : Bool) (e : CExpr) : CExpr :=
  let distPrefixed := fun (n : String) =>
    (if isAligned then Constants.ALIGNED_DISTANCE else Constants.SHADOW_DISTANCE) ++ "_" ++ n
  match e with
  | .evar n =>
      let v := getTypes ts n
      let d := if isAligned then v.aligned else v.shadow
      if d == "0" then e
      else if d == "*" then .binOp "+" e (.evar (distPrefixed n))
      else .binOp "+" e (.distRef d)
  | .arrRef n sub =>
      let v := getTypes ts n
      let d := if isAligned then v.aligned else v.shadow
      if d == "0" then e
      else if d == "*" then .binOp "+" e (.arrRef (distPrefixed n) sub)
      else .binOp "+" e (.distRef d)
  | _ => e

/-- Embedding of `ExpressionReplacer.visit` (transform/utils.py lines 98-117):
replacement happens at identifier and array-reference operands of binary and
unary operations; a bare identifier at the top is left unchanged (the visitor
has no `visit_ID`). -/
def replaceExpr (ts : TypeSystem) (isAligned : Bool) : CExpr → CExpr
  | .binOp op l r =>
      let left := match l with
        | .evar _ | .arrRef .. => replaceVar ts isAligned l
        | _ => replaceExpr ts isAligned l
      let right := match r with
        | .evar _ | .arrRef .. => replaceVar ts isAligned r
        | _ => replaceExpr ts isAligned r
      .binOp op left right
  | .unOp op e =>
      let inner := match e with
        | .evar _ | .arrRef .. => replaceVar ts isAligned e
        | _ => replaceExpr ts isAligned e
      .unOp op inner
  | e => e

/-- Statements of the supported subset, plus the statement shapes the
transformer itself inserts (each constructor mirrors one `parse(...)` or
`c_ast` construction in transform/base.py):

* `assign`, `declPlain`, `declInit`, `declLap`, `sif`, `swhile`, `outputCall`
  are the preprocessed input forms;
* `declSample` is a declaration whose initializer was rewritten to
  `sample_array[sample_index]` (base.py line 261);
* `assertAligned pos c` is `assert((c))` / `assert(!(c))` inserted at branch
  tops (base.py lines 318-324);
* `assertZero d` is `assert((d) == 0)` inserted after OUTPUT (line 390);
* `distUpdate v x d` is `v_x = d` (lines 89, 112, 130);
* `shadowAsgn x e` is `shadow_x = x + shadow_x - e` (lines 117-127);
* `selectorSwitch eta us` is the `if (selector_eta == SHADOW) { ... }` switch
  with updates `aligned_n = rhs` (lines 227-240);
* `randomDistAsgn eta` is `aligned_eta = RANDOM_DISTANCE_eta` (line 243);
* `epsUpdate g eta c` is `v_epsilon = prev + c` where `prev` is
  `((selector_eta == ALIGNED) ? v_epsilon : 0)` when the shadow guard `g`
  holds and plain `v_epsilon` otherwise (lines 251-257);
* `sampleIncr` is `sample_index = sample_index + 1` (line 262);
* `vEpsilonDecl`, `sampleIndexDecl`, `distVarDecl`, `returnEps` are the
  prolog/epilog of `visit_FuncDef` and `transform` (lines 157-175, 399). -/
inductive CStmt where
  | assign (lhs rhs : CExpr)
  | declPlain (name : String)
  | declInit (name : String) (init : CExpr)
  | declLap (name : String) (scale : CExpr)
  | declSample (name : String)
  | sif (cond : CExpr) (thenBranch : List CStmt) (elseBranch : Option (List CStmt))
  | swhile (cond : CExpr) (body : List CStmt)
  | outputCall (arg : CExpr)
  | assertAligned (positive : Bool) (cond : CExpr)
  | assertZero (dist : String)
  | distUpdate (version name dist : String)
  | shadowAsgn (target : CExpr) (expr : CExpr)
  | selectorSwitch (eta : String) (updates : List (String × String))
  | randomDistAsgn (eta : String)
  | epsUpdate (shadowGuard : Bool) (eta : String) (cost : String)
  | sampleIncr
  | vEpsilonDecl
  | sampleIndexDecl
  | distVarDecl (version name : String)
  | returnEps

/-- Traversal state of `Transformer` (base.py lines 46-63): the type
environment, the shadow-divergence flag `pc`, the loop level, the parameter
list, the recorded random variables, the `enable_shadow` switch, the sympy
simplifier (as a parameter, see `distPair`), and an error flag standing for a
raised exception. -/
structure TState where
  ts : TypeSystem
  pc : Bool
  loopLevel : Nat
  params : List String
  randomVars : List String
  enableShadow : Bool
  simpf : String → String
  err : Bool

/-- Embedding of the Instrumentation rule `Transformer._instrument` (base.py
lines 74-91): for every name of both environments and both tracks, emit
`version_name = d1` when the first environment has a concrete distance `d1`
but the second reports "*"; all instrumentation is skipped when shadow mode
is off, and the shadow track is skipped under `pc` (line 86). -/
def instrument (enableShadow pc : Bool) (ts1 ts2 : TypeSystem) : List CStmt :=
  ts1.flatMap fun p =>
    match ts2.find? (fun q => q.1 == p.1) with
    | none => []
    | some q =>
      [(Constants.ALIGNED_DISTANCE, p.2.aligned, q.2.aligned),
       (Constants.SHADOW_DISTANCE, p.2.shadow, q.2.shadow)].flatMap fun t =>
        if ¬enableShadow ∨ (t.1 == Constants.SHADOW_DISTANCE ∧ pc) then []
        else if t.2.1 ≠ "*" ∧ t.2.2 == "*" then [.distUpdate t.1 p.1 t.2.1]
        else []

/-- Embedding of `Transformer._update_pc` (base.py lines 65-71). -/
def updatePC (enableShadow : Bool) (pc : Bool) (ts : TypeSystem) (cond : CExpr) : Bool :=
  if ¬enableShadow then false
  else if pc then true
  else isShadowDivergent ts cond

/-- Name assigned to, as extracted at base.py line 106 (identifier name or
array name). -/
def lvalName : CExpr → String
  | .evar n => n
  | .arrRef n _ => n
  | _ => ""

/-- Shadow-distance target of an assigned variable (base.py lines 117-123):
the identifier `shadow_x`, or `shadow_x[sub]` for an array reference. -/
def shadowTarget : CExpr → CExpr
  | .evar n => .evar (Constants.SHADOW_DISTANCE ++ "_" ++ n)
  | .arrRef n sub => .arrRef (Constants.SHADOW_DISTANCE ++ "_" ++ n) sub
  | e => e

/-- Embedding of the T-Asgn rule `Transformer._assign` (base.py lines
103-134), shared by assignments and initialized declarations: computes the
distance pair of the right-hand side, inserts the distance updates at loop
level 0 (`x_shadow` update before the node under `pc`, the shadow then the
aligned update after it otherwise), and updates the environment.  Returns the
new state and the statement list replacing the node. -/
def tAssign (st : TState) (lvalue : CExpr) (expression : CExpr) (node : CStmt) :
    TState × List CStmt :=
  let vname := lvalName lvalue
  let v := getTypes st.ts vname
  match distPair st.simpf st.ts expression with
  | none => ({ st with err := true }, [node])
  | some (aligned, shadow) =>
      let afterAligned : List CStmt :=
        if st.loopLevel == 0 ∧ (v.aligned == "*" ∨ aligned ≠ "0") then
          [.distUpdate Constants.ALIGNED_DISTANCE vname aligned]
        else []
      let beforeShadow : List CStmt :=
        if st.loopLevel == 0 ∧ st.enableShadow ∧ st.pc then
          [.shadowAsgn lvalue expression]
        else []
      let afterShadow : List CStmt :=
        if st.loopLevel == 0 ∧ st.enableShadow ∧ ¬st.pc ∧
            (v.shadow == "*" ∨ shadow ≠ "0") then
          [.distUpdate Constants.SHADOW_DISTANCE vname shadow]
        else []
      let newShadow := if st.pc ∨ shadow ≠ "0" ∨ v.shadow == "*" then "*" else "0"
      let newAligned := if aligned ≠ "0" ∨ v.aligned == "*" then "*" else "0"
      ({ st with ts := updateDistance st.ts vname newAligned newShadow },
       beforeShadow ++ [node] ++ afterShadow ++ afterAligned)

/-- Checks whether a declaration initializer is in the class handled by the
T-Asgn branch of `visit_Decl` (base.py line 201: Constant, BinaryOp or
UnaryOp; identifiers and anything else raise NotImplementedError). -/
def isSimpleInit : CExpr → Bool
  | .const _ => true
  | .binOp .. => true
  | .unOp .. => true
  | _ => false

/-- Cost string built for a Laplace sample (base.py lines 248-249), before
the sympy simplification `expr_simplify`. -/
def lapCostString (eta : String) (scale : CExpr) : String :=
  "(Abs(" ++ Constants.ALIGNED_DISTANCE ++ "_" ++ eta ++ ") * (1 / (" ++
    printExpr scale ++ ")))"

/-- Selector-switch updates for a Laplace sample (base.py lines 229-234):
for every dynamically tracked non-parameter variable other than the sample
itself, overwrite its aligned distance with its shadow distance. -/
def selectorUpdates (st : TState) (eta : String) : List (String × String) :=
  st.ts.filterMap fun p =>
    if p.2.aligned == "*" ∧ p.1 ∉ st.params ∧ p.1 ≠ eta then
      some (p.1, if p.2.shadow == "*" then Constants.SHADOW_DISTANCE ++ "_" ++ p.1
                 else p.2.shadow)
    else none

/-- Shadow copy of the environment made before merging at a Laplace sample
(base.py lines 216-222): every name (except custom holes) gets its shadow
distance on both tracks.  Hole names contain the HOLE constant; user names
cannot (preprocessing rejects the CHECKDP prefix), so the hole test is a
plain name check here. -/
def lapShadowMerge (ts : TypeSystem) : TypeSystem :=
  mergeTS ts
    (ts.map fun p =>
      if (p.1.splitOn Constants.HOLE).length ≠ 1 then p
      else (p.1, { p.2 with aligned := p.2.shadow }))

/-- Filter applied by `_ShadowBranchGenerator.visit_Compound` (base.py lines
25-37) to a deep copy of a transformed branch: keep only assignments to
dynamically shadow-tracked user variables and turn each into
`shadow_x = (shadow-substituted rhs) - x`. -/
def shadowBranchFilter (ts : TypeSystem) (shadowVars : List String)
    (items : List CStmt) : List CStmt :=
  items.filterMap fun s =>
    match s with
    | .assign (.evar n) rv =>
        if n ∈ shadowVars then
          some (.assign (.evar (Constants.SHADOW_DISTANCE ++ "_" ++ n))
            (.binOp "-" (replaceExpr ts false rv) (.evar n)))
        else none
    | _ => none

mutual

/-- Embedding of the statement dispatch of `Transformer` (base.py): T-Asgn for
assignments and initialized declarations, T-Laplace for `x = Lap(scale)`
declarations, T-If, T-While and T-Return (OUTPUT).  Statement constructors the
transformer itself inserts are never re-visited within a pass
(`visit_Compound` snapshots the child list before any insertion), so their
cases are plain pass-throughs; a re-visited `declSample` would raise
(base.py line 266) and is marked as an error.  The `fuel` argument bounds the
fixed-point iteration of T-While (the Python loop terminates by finiteness of
the distance lattice, spec section 8, invariant 2); every recursive call
consumes one unit of fuel, and exhaustion is flagged as an error (with enough
fuel the result is fuel-independent, mirroring the Python recursion). -/
def transformStmt : Nat → TState → CStmt → TState × List CStmt
  | 0, st, s => ({ st with err := true }, [s])
  | fuel + 1, st, s =>
  match s with
  | .assign lhs rhs => tAssign st lhs rhs (.assign lhs rhs)
  | .declPlain name =>
      ({ st with ts := updateDistance st.ts name "0" "0" }, [.declPlain name])
  | .declInit name init =>
      if isSimpleInit init then tAssign st (.evar name) init (.declInit name init)
      else ({ st with err := true }, [.declInit name init])
  | .declLap name scale =>
      if st.enableShadow ∧ st.pc then
        ({ st with err := true }, [.declLap name scale])
      else
        let st1 := { st with
          randomVars := if name ∈ st.randomVars then st.randomVars
                        else st.randomVars ++ [name],
          ts := updateDistance st.ts name "*" "0" }
        let st2 := if st.enableShadow then { st1 with ts := lapShadowMerge st1.ts } else st1
        if st.loopLevel == 0 then
          let selectorPart : List CStmt :=
            if st.enableShadow then [.selectorSwitch name (selectorUpdates st2 name)]
            else []
          let cost := st.simpf (lapCostString name scale)
          (st2, .declSample name :: selectorPart ++
            [.randomDistAsgn name, .epsUpdate st.enableShadow name cost, .sampleIncr])
        else (st2, [.declLap name scale])
  | .sif cond thenB elseB =>
      let beforePc := st.pc
      let pc1 := updatePC st.enableShadow st.pc st.ts cond
      let beforeTypes := st.ts
      let alignedTrueCond := replaceExpr st.ts true cond
      let (stT, thenT) := transformBlock fuel { st with pc := pc1 } thenB
      let stElseStart := { stT with ts := beforeTypes }
      let (stF, elseT) :=
        match elseB with
        | some l => transformBlock fuel stElseStart l
        | none => (stElseStart, [])
      let alignedFalseCond := replaceExpr stF.ts true cond
      let falseTypes := stF.ts
      let merged := mergeTS stF.ts stT.ts
      let stM := { stF with ts := merged, pc := beforePc }
      if st.loopLevel == 0 then
        let shadowPart : List CStmt :=
          if st.enableShadow ∧ pc1 ∧ ¬beforePc then
            let shadowVars := merged.filterMap fun p =>
              if p.2.shadow == "*" then some p.1 else none
            [.sif (replaceExpr merged false cond)
              (shadowBranchFilter merged shadowVars thenT)
              (match elseB with
               | some _ => some (shadowBranchFilter merged shadowVars elseT)
               | none => none)]
          else []
        let divergent := isAlignedDivergent merged cond
        let thenFinal :=
          (if divergent then [.assertAligned true alignedTrueCond] else []) ++
          thenT ++ instrument st.enableShadow pc1 stT.ts merged
        let elseFinal :=
          (if divergent then [.assertAligned false alignedFalseCond] else []) ++
          elseT ++ instrument st.enableShadow pc1 falseTypes merged
        (stM, .sif cond thenFinal (some elseFinal) :: shadowPart)
      else
        (stM, [.sif cond thenT
          (match elseB with | some _ => some elseT | none => none)])
  | .swhile cond body =>
      let beforePc := st.pc
      let pc1 := updatePC st.enableShadow st.pc st.ts cond
      let beforeTypes := st.ts
      let stFix := whileFix fuel
        { st with pc := pc1, loopLevel := st.loopLevel + 1 } body
      let stDown := { stFix with loopLevel := st.loopLevel }
      if st.loopLevel == 0 then
        let divergent := isAlignedDivergent stDown.ts cond
        let body1 :=
          if divergent then
            .assertAligned true (replaceExpr stDown.ts true cond) :: body
          else body
        let (stAfter, body2) := transformBlock fuel stDown body1
        let mergedTs := mergeTS beforeTypes stDown.ts
        let cS := instrument st.enableShadow pc1 beforeTypes mergedTs
        let updates := instrument st.enableShadow pc1 stAfter.ts mergedTs
        ({ stAfter with ts := mergedTs, pc := beforePc },
         cS ++ [.swhile cond (body2 ++ updates)])
      else
        ({ stDown with pc := beforePc }, [.swhile cond body])
  | .outputCall arg =>
      if st.loopLevel == 0 then
        match distPair st.simpf st.ts arg with
        | none => ({ st with err := true }, [.outputCall arg])
        | some d =>
            if d.1 ≠ "0" then (st, [.outputCall arg, .assertZero d.1])
            else (st, [.outputCall arg])
      else (st, [.outputCall arg])
  | .declSample name => ({ st with err := true }, [.declSample name])
  | .assertAligned pos c => (st, [.assertAligned pos c])
  | .assertZero d => (st, [.assertZero d])
  | .distUpdate v n d => (st, [.distUpdate v n d])
  | .shadowAsgn t e => (st, [.shadowAsgn t e])
  | .selectorSwitch eta us => (st, [.selectorSwitch eta us])
  | .randomDistAsgn eta => (st, [.randomDistAsgn eta])
  | .epsUpdate g eta c => (st, [.epsUpdate g eta c])
  | .sampleIncr => (st, [.sampleIncr])
  | .vEpsilonDecl => (st, [.vEpsilonDecl])
  | .sampleIndexDecl => (st, [.sampleIndexDecl])
  | .distVarDecl v n => (st, [.distVarDecl v n])
  | .returnEps => (st, [.returnEps])

/-- Embedding of `Transformer.visit_Compound` (base.py lines 136-142): each
child of the snapshot is visited in order, and the statements that replace it
(the node plus its inserted siblings) are concatenated. -/
def transformBlock : Nat → TState → List CStmt → TState × List CStmt
  | _, st, [] => (st, [])
  | 0, st, l => ({ st with err := true }, l)
  | fuel + 1, st, s :: rest =>
      let (st1, out1) := transformStmt fuel st s
      let (st2, out2) := transformBlock fuel st1 rest
      (st2, out1 ++ out2)

/-- Embedding of the fixed-point loop of `visit_While` (base.py lines
340-348): repeatedly visit the body (at the incremented loop level, hence
without emission) and merge the result with the previous environment, until
the environment stabilizes. -/
def whileFix : Nat → TState → List CStmt → TState
  | 0, st, _ => { st with err := true }
  | fuel + 1, st, body =>
      let fixed := st.ts
      let st1 := (transformBlock fuel st body).1
      let mergedTs := mergeTS st1.ts fixed
      let st2 := { st1 with ts := mergedTs }
      if mergedTs == fixed then st2 else whileFix fuel st2 body

end

/-- Function definitions: name, parameter names in order, body. -/
structure FuncDef where
  name : String
  params : List String
  body : List CStmt
deriving Inhabited

/-- Declarations of distance variables for dynamically tracked locals,
prepended by `visit_FuncDef` (base.py lines 164-172). -/
def trackedLocalDecls (enableShadow : Bool) (params : List String)
    (ts : TypeSystem) : List CStmt :=
  ts.flatMap fun p =>
    if p.1 ∈ params then []
    else
      [(Constants.ALIGNED_DISTANCE, p.2.aligned),
       (Constants.SHADOW_DISTANCE, p.2.shadow)].flatMap fun t =>
        if t.1 == Constants.SHADOW_DISTANCE ∧ ¬enableShadow then []
        else if t.2 == "*" ∨ t.2 == t.1 ++ "_" ++ p.1 then [.distVarDecl t.1 p.1]
        else []

/-- Embedding of `Transformer.visit_FuncDef` (base.py lines 144-176) on a
function value: visit the body starting from the preprocessed environment,
then prepend the `v_epsilon` and `sample_index` declarations and the
distance-variable declarations of tracked locals. -/
def transformFuncDef (fuel : Nat) (enableShadow : Bool) (simpf : String → String)
    (ts0 : TypeSystem) (f : FuncDef) : TState × FuncDef :=
  let st0 : TState :=
    { ts := ts0, pc := false, loopLevel := 0, params := f.params,
      randomVars := [], enableShadow := enableShadow, simpf := simpf, err := false }
  let (st1, body1) := transformBlock fuel st0 f.body
  (st1,
   { f with body :=
      [.vEpsilonDecl, .sampleIndexDecl] ++
      trackedLocalDecls enableShadow f.params st1.ts ++ body1 })

/-- Embedding of `Transformer.transform` (base.py lines 394-400): run
`visit_FuncDef` and append `return v_epsilon`. -/
def transformTop (fuel : Nat) (enableShadow : Bool) (simpf : String → String)
    (ts0 : TypeSystem) (f : FuncDef) : FuncDef × TypeSystem :=
  let (st1, g) := transformFuncDef fuel enableShadow simpf ts0 f
  ({ g with body := g.body ++ [.returnEps] }, st1.ts)

/-- Semantics (over exact rationals) of the cost term `Abs(aligned_eta) *
(1 / scale)` of the emitted `v_epsilon` update (base.py lines 248-249);
`expr_simplify` is value-preserving, so the value is computed from the
unsimplified term. -/
def lapCostTerm (alignedEta scale : ℚ) : ℚ :=
  |alignedEta| * (1 / scale)

/-- Semantics of the emitted `v_epsilon` assignment (base.py lines 251-257):
with the shadow guard, the previous cost is `v_epsilon` when the sample's
selector equals SELECT_ALIGNED and `0` otherwise; without it, the previous
cost is `v_epsilon` itself.  The new value adds the cost term. -/
def epsUpdateValue (shadowGuard : Bool) (selectorVal : Int) (vEps costTerm : ℚ) : ℚ :=
  (if shadowGuard then
    (if selectorVal = Constants.SELECT_ALIGNED then vEps else 0)
   else vEps) + costTerm

/-- Recognizer for the emitted `v_epsilon` assignments. -/
def isEpsUpdate : CStmt → Bool
  | .epsUpdate .. => true
  | _ => false

end Transform

namespace Post

open Transform

/-- Presence of an identifier in an expression, as found by the `NodeFinder`
in `PostProcessor.visit_While` (postprocess.py lines 61-63). -/
def mentionsId (name : String) (e : CExpr) : Bool :=
  name ∈ exprIds e

mutual

/-- Embedding of the traversal counters of `PostProcessor` (postprocess.py
lines 60-76): walk a statement carrying the current sized-loop level and the
accumulated `(sample_array_size_loops, sample_array_size_constants)` pair.
Declarations initialized from the sample array count into the constants when
outside every size-indexed loop and add the current level to the loops
counter otherwise. -/
def postVisitStmt (size : String) (lvl : Nat) (acc : Nat × Nat) :
    CStmt → Nat × Nat
  | .declSample _ => if lvl == 0 then (acc.1, acc.2 + 1) else (acc.1 + lvl, acc.2)
  | .swhile cond body =>
      postVisitBlock size (if mentionsId size cond then lvl + 1 else lvl) acc body
  | .sif _ thenB elseB =>
      let acc1 := postVisitBlock size lvl acc thenB
      match elseB with
      | some l => postVisitBlock size lvl acc1 l
      | none => acc1
  | _ => acc

/-- Statement-list version of `postVisitStmt` (the generic visit over a
compound). -/
def postVisitBlock (size : String) (lvl : Nat) (acc : Nat × Nat) :
    List CStmt → Nat × Nat
  | [] => acc
  | s :: rest => postVisitBlock size lvl (postVisitStmt size lvl acc s) rest

end

/-- Embedding of the closure returned by `PostProcessor.process`
(postprocess.py lines 78-84): `query_size` maps to
`loops * query_size + constants` with the two counters obtained from the
traversal of the function body. -/
def sampleSizeClosure (size : String) (body : List CStmt) : Nat → Nat :=
  let counters := postVisitBlock size 0 (0, 0) body
  fun querySize => counters.1 * querySize + counters.2

mutual

/-- Specification-side count: sampling statements occurring outside every
loop whose condition mentions the size parameter. -/
def samplesOutside (size : String) : CStmt → Nat
  | .declSample _ => 1
  | .swhile cond body =>
      if mentionsId size cond then 0 else samplesOutsideBlock size body
  | .sif _ thenB elseB =>
      samplesOutsideBlock size thenB +
      (match elseB with
       | some l => samplesOutsideBlock size l
       | none => 0)
  | _ => 0

/-- Statement-list version of `samplesOutside`. -/
def samplesOutsideBlock (size : String) : List CStmt → Nat
  | [] => 0
  | s :: rest => samplesOutside size s + samplesOutsideBlock size rest

end

mutual

/-- Specification-side count: every sampling statement nested inside
size-indexed loops is weighted by its nesting depth (matching what the
traversal adds to the loops counter). -/
def samplesWeighted (size : String) (lvl : Nat) : CStmt → Nat
  | .declSample _ => lvl
  | .swhile cond body =>
      samplesWeightedBlock size (if mentionsId size cond then lvl + 1 else lvl) body
  | .sif _ thenB elseB =>
      samplesWeightedBlock size lvl thenB +
      (match elseB with
       | some l => samplesWeightedBlock size lvl l
       | none => 0)
  | _ => 0

/-- Statement-list version of `samplesWeighted`. -/
def samplesWeightedBlock (size : String) (lvl : Nat) : List CStmt → Nat
  | [] => 0
  | s :: rest => samplesWeighted size lvl s + samplesWeightedBlock size lvl rest

end

end Post

namespace RandomDistance

/-- Roles of the alignment-array slots (random_distance.py lines 15-18). -/
inductive AlignmentIndexType where
  | Variable
  | Constant
  | Selector
deriving DecidableEq

/-- Structured mirror of the template string built by
`_generate_random_distance` (random_distance.py lines 21-37): a leaf is the
affine part `(A[start] + A[start+1]*v_0 + ... )` over the alignment array
`A`, and a node is the conditional `cond ? left : right`. -/
inductive RDTemplate where
  | leaf (startIndex : Nat) (vars : List String)
  | node (cond : String) (ifTrue ifFalse : RDTemplate)
deriving DecidableEq

/-- Textual reference to an alignment-array slot. -/
def slotRef (i : Nat) : String :=
  Constants.ALIGNMENT_ARRAY ++ "[" ++ toString i ++ "]"

/-- Printer producing exactly the string `_generate_random_distance` builds
from the structured template. -/
def printTemplate : RDTemplate → String
  | .leaf s vars =>
      "(" ++ String.intercalate " + "
        (slotRef s :: vars.enum.map fun p => slotRef (s + 1 + p.1) ++ " * " ++ p.2)
      ++ ")"
  | .node c l r => c ++ " ? " ++ printTemplate l ++ " : " ++ printTemplate r

/-- Embedding of `_generate_random_distance` (random_distance.py lines
21-37): the generated template together with the extended tag list.  A leaf
consumes one Constant (or Selector) slot plus one Variable slot per variable,
starting at the current length of the tag list; a condition duplicates the
recursion down both sides. -/
def generateRandomDistance (conds : List String) (vars : List String)
    (tags : List AlignmentIndexType) (isSelector : Bool) :
    RDTemplate × List AlignmentIndexType :=
  match conds with
  | [] =>
      (.leaf tags.length vars,
       tags ++ (if isSelector then AlignmentIndexType.Selector
                else AlignmentIndexType.Constant) :: vars.map fun _ => .Variable)
  | c :: rest =>
      let lp := generateRandomDistance rest vars tags isSelector
      let rp := generateRandomDistance rest vars lp.2 isSelector
      (.node c lp.1 rp.1, rp.2)

/-- Alignment-array slots referenced by a template, in emission order: a leaf
references the contiguous block it consumed. -/
def refIndices : RDTemplate → List Nat
  | .leaf s vars => List.range' s (vars.length + 1)
  | .node _ l r => refIndices l ++ refIndices r

/-- Number of conditional leaves of a template. -/
def leafCount : RDTemplate → Nat
  | .leaf .. => 1
  | .node _ l r => leafCount l + leafCount r

/-- Body of an emitted macro: either the literal SELECT_ALIGNED (the
collapsed selector for zero conditions, random_distance.py line 198) or a
generated template. -/
inductive MacroBody where
  | selectAligned
  | tmpl (t : RDTemplate)

/-- Slots referenced by a macro body. -/
def macroRefs : MacroBody → List Nat
  | .selectAligned => []
  | .tmpl t => refIndices t

/-- Conditional leaves of a macro body (zero for the collapsed literal). -/
def macroLeaves : MacroBody → Nat
  | .selectAligned => 0
  | .tmpl t => leafCount t

/-- One emitted `#define` line: its name, whether it is a `SELECTOR_*` macro,
and its body. -/
structure MacroEntry where
  name : String
  isSel : Bool
  body : MacroBody

/-- Embedding of `RandomDistanceGenerator.generate_macros` (random_distance.py
lines 184-209): iterate over the collected templates `(eta, conds, vars)`; in
shadow mode emit a `SELECTOR_eta` macro first (collapsed to the literal when
there are no conditions), then emit the `RANDOM_DISTANCE_eta` macro, threading
the shared tag list. -/
def generateMacros (enableShadow : Bool)
    (templates : List (String × List String × List String))
    (tags : List AlignmentIndexType) :
    List MacroEntry × List AlignmentIndexType :=
  match templates with
  | [] => ([], tags)
  | (eta, conds, vars) :: rest =>
      let selPart : List MacroEntry × List AlignmentIndexType :=
        if enableShadow then
          if conds.length == 0 then
            ([⟨Constants.SELECTOR ++ "_" ++ eta, true, .selectAligned⟩], tags)
          else
            let g := generateRandomDistance conds [] tags true
            ([⟨Constants.SELECTOR ++ "_" ++ eta, true, .tmpl g.1⟩], g.2)
        else ([], tags)
      let g2 := generateRandomDistance conds vars selPart.2 false
      let restPart := generateMacros enableShadow rest g2.2
      (selPart.1 ++ ⟨Constants.RANDOM_DISTANCE ++ "_" ++ eta, false, .tmpl g2.1⟩ :: restPart.1,
       restPart.2)

end RandomDistance

namespace Preprocess

/-- Embedding of the LCM computed in `Preprocessor.process` (preprocess.py
line 187): sympy takes the denominators of the fractions `1 / (scale)` for
every collected Lap call, together with the denominator of the goal, and
their lcm.  Scales and goal are modelled by their rational parts (a scale of
the form `c / epsilon` has the same 1/scale denominator as the rational `c`,
since the symbol ends up in the numerator). -/
def scaleLcm (scales : List ℚ) (goal : ℚ) : ℕ :=
  ((scales.map fun s => (1 / s).den) ++ [goal.den]).foldr Nat.lcm 1

/-- Embedding of the scaling step of `Preprocessor.process` (preprocess.py
lines 185-197): when the lcm is not 1, every scale is divided by it and the
goal is multiplied by it; otherwise nothing changes. -/
def processScaling (scales : List ℚ) (goal : ℚ) : List ℚ × ℚ :=
  let L := scaleLcm scales goal
  if L ≠ 1 then
    (scales.map fun s => s / (L : ℚ), goal * (L : ℚ))
  else (scales, goal)

end Preprocess

namespace Memory

/-- Object store at the granularity of function-definition nodes: addresses
are list positions, allocation appends.  This models the Python object graph
as far as claim C10 needs: `deepcopy` allocates a fresh address with an equal
value, and in-place mutation writes through one address. -/
abbrev Heap := List Transform.FuncDef

/-- Embedding of `deepcopy(node)` (base.py line 149): the copy lives at a
fresh address (the current length), and the source object is not written. -/
def pyDeepcopy (h : Heap) (a : Nat) : Heap × Nat :=
  (h ++ [(h.getD a default)], h.length)

/-- Embedding of `Transformer.transform` (base.py lines 394-400) acting on
the object store: `visit_FuncDef` first deep-copies its argument (line 149)
and every subsequent mutation of the pass targets the copy, modelled as a
single in-place write through the fresh address. -/
def transformOnHeap (fuel : Nat) (enableShadow : Bool) (simpf : String → String)
    (ts0 : Transform.TypeSystem) (h : Heap) (a : Nat) : Heap × Nat :=
  let hb := pyDeepcopy h a
  (hb.1.set hb.2
    (Transform.transformTop fuel enableShadow simpf ts0 (hb.1.getD hb.2 default)).1,
   hb.2)

end Memory

/-! Claim theorems. -/

namespace Core

/-- Loop invariant of `core.run`: whenever the loop is searching for inputs,
it is not in final-validation mode (the validation rounds always search for
alignments, by the double flip at core.py lines 88-89 and 93). -/
theorem reachable_find_not_final {M : Type} {a0 : M} {s : CoreState M}
    (h : Reachable a0 s) (hfind : s.isFindInputs = true) :
    s.isFinalValidate = false := by
  induction h with
  | init => rfl
  | step hr hstep ih =>
    rename_i s s' r
    unfold coreStep at hstep
    by_cases hf : s.isFindInputs = true
    · simp only [hf, if_true] at hstep
      cases r with
      | some m => cases hstep; simp at hfind
      | none => cases hstep
    · simp only [hf] at hstep
      simp only [Bool.not_eq_true] at hf
      simp only [hf, Bool.false_eq_true, if_false] at hstep
      cases r with
      | some m =>
        by_cases hv : s.isFinalValidate = true
        · simp only [hv, if_true] at hstep
          cases hstep; rfl
        · simp only [Bool.not_eq_true] at hv
          simp only [hv, Bool.false_eq_true, if_false] at hstep
          cases hstep; rfl
      | none =>
        by_cases hv : s.isFinalValidate = true
        · simp only [hv, if_true] at hstep; cases hstep
        · simp only [Bool.not_eq_true] at hv
          simp only [hv, Bool.false_eq_true, if_false] at hstep
          cases hstep; simp at hfind

/-- C1: in every reachable CEGIS iteration of core.run in which the symbolic
executor returns no model while the loop is searching for inputs, the loop
stops immediately, returning the success outcome together with the current
list of candidate alignments, which is exactly the concretes used in that
iteration (core.py lines 62-66). -/
theorem cegis_no_model_while_searching_inputs {M : Type} (a0 : M)
    (s : CoreState M) (hreach : Reachable a0 s)
    (hfind : s.isFindInputs = true) :
    coreStep none s = StepOutcome.proved s.possibleAlignments ∧
    concretesOf s = s.possibleAlignments := by
  have hfinal : s.isFinalValidate = false := reachable_find_not_final hreach hfind
  have hc : concretesOf s = s.possibleAlignments := by
    unfold concretesOf
    simp [hfind, hfinal]
  refine ⟨?_, hc⟩
  unfold coreStep
  simp [hfind, hc]

/-- Witness for C1 at the initial state with a single default alignment. -/
theorem cegis_no_model_while_searching_inputs_witness :
    coreStep none (initState (0 : Nat)) = StepOutcome.proved [0] ∧
    concretesOf (initState (0 : Nat)) = [0] :=
  cegis_no_model_while_searching_inputs 0 (initState 0) Reachable.init rfl

end Core

namespace Template

/-- Lookup of a key after replacing the value stored at that key (used for the
dictionary update performed by `related_inputs`). -/
theorem lookupInput_map_const (k : String) (c : InputValue) (m : InputMap)
    (hsome : (lookupInput m k).isSome = true) :
    lookupInput (m.map fun p => if p.1 == k then (p.1, c) else p) k = some c := by
  induction m with
  | nil => simp [lookupInput] at hsome
  | cons p rest ih =>
    by_cases hk : p.1 == k
    · simp [lookupInput, List.find?, hk]
    · simp only [lookupInput, List.find?, hk, Bool.false_eq_true, if_false,
        List.map_cons] at hsome ⊢
      exact ih hsome

/-- C8: for every counterexample input map containing the query array and its
aligned distance array, `Template.related_inputs` returns a map whose query
entry equals the elementwise sum of the query array and the aligned distance
array of the query (template.py lines 115-120). -/
theorem related_inputs_query_entry (queryVar : String) (m : InputMap)
    (q dq : List Int)
    (hq : lookupInput m queryVar = some (.array q))
    (hdq : lookupInput m (Constants.ALIGNED_DISTANCE ++ "_" ++ queryVar) =
      some (.array dq)) :
    ∃ m', relatedInputs queryVar m = some m' ∧
      lookupInput m' queryVar =
        some (.array (List.zipWith (fun x y => x + y) q dq)) := by
  refine ⟨_, by rw [relatedInputs, hq, hdq], ?_⟩
  exact lookupInput_map_const queryVar _ m (by rw [hq]; rfl)

/-- Witness for C8 on a concrete two-entry counterexample map. -/
theorem related_inputs_query_entry_witness :
    ∃ m', relatedInputs "q"
        [("q", InputValue.array [1, 2]),
         ("CHECKDP_ALIGNED_DISTANCE_q", InputValue.array [1, 0])] = some m' ∧
      lookupInput m' "q" = some (InputValue.array [2, 2]) :=
  related_inputs_query_entry "q" _ [1, 2] [1, 0] rfl rfl

end Template

namespace Preprocess

/-- C9: the preprocessor raises a configuration error if the distance
annotation names any non-parameter or if any parameter lacks an annotation;
when every parameter is annotated and no non-parameter is, the check
succeeds (preprocess.py lines 119-130). -/
theorem annotation_check_ok_iff (annotated parameters : Finset String) :
    checkParameterAnnotations annotated parameters = .ok () ↔
      ((∀ x ∈ annotated, x ∈ parameters) ∧ (∀ x ∈ parameters, x ∈ annotated)) := by
  unfold checkParameterAnnotations
  constructor
  · intro h
    by_cases h1 : 0 < (annotated \ parameters).card
    · simp [h1] at h
    · by_cases h2 : 0 < (parameters \ annotated).card
      · simp [h1, h2] at h
      · simp only [Finset.card_pos, Finset.not_nonempty_iff_eq_empty,
          not_lt, Nat.le_zero, Finset.card_eq_zero] at h1 h2
        rw [Finset.sdiff_eq_empty_iff_subset] at h1 h2
        exact ⟨fun x hx => h1 hx, fun x hx => h2 hx⟩
  · rintro ⟨h1, h2⟩
    have e1 : annotated \ parameters = ∅ :=
      Finset.sdiff_eq_empty_iff_subset.mpr (fun x hx => h1 x hx)
    have e2 : parameters \ annotated = ∅ :=
      Finset.sdiff_eq_empty_iff_subset.mpr (fun x hx => h2 x hx)
    simp [e1, e2]

end Preprocess

namespace Transform

/-- C3: for every OUTPUT(e) call processed at loop level 0, the transformer
inserts `assert(aligned(e) == 0)` immediately after the call if and only if
the computed aligned distance of `e` is not the literal "0"
(base.py lines 382-392). -/
theorem output_assertion_iff (fuel : Nat) (st : TState) (arg : CExpr)
    (ad sd : String)
    (h0 : st.loopLevel = 0)
    (hd : distPair st.simpf st.ts arg = some (ad, sd)) :
    transformStmt (fuel + 1) st (.outputCall arg) =
      (st, if ad = "0" then [.outputCall arg]
           else [.outputCall arg, .assertZero ad]) := by
  simp only [transformStmt, h0, hd]
  by_cases h : ad = "0"
  · simp [h]
  · simp [h]

/-- Witness for C3: an output of a dynamically tracked variable gets the
assertion, placed immediately after the call. -/
theorem output_assertion_iff_witness :
    transformStmt 1
      { ts := [("x", ⟨"*", "0", "int", false⟩)], pc := false, loopLevel := 0,
        params := [], randomVars := [], enableShadow := false, simpf := id,
        err := false }
      (.outputCall (.evar "x")) =
      ({ ts := [("x", ⟨"*", "0", "int", false⟩)], pc := false, loopLevel := 0,
         params := [], randomVars := [], enableShadow := false, simpf := id,
         err := false },
       [.outputCall (.evar "x"), .assertZero "(CHECKDP_ALIGNED_DISTANCE_x)"]) := by
  rw [output_assertion_iff 0
    { ts := [("x", ⟨"*", "0", "int", false⟩)], pc := false, loopLevel := 0,
      params := [], randomVars := [], enableShadow := false, simpf := id,
      err := false }
    (.evar "x") "(CHECKDP_ALIGNED_DISTANCE_x)" "0" rfl rfl]
  rfl

/-- C2: complete characterization of what `visit_If` emits at loop level 0
(base.py lines 270-332).  In particular, when the merged environment reports
the condition aligned-divergent (it mentions a variable of aligned distance
"*"), `assert((aligned cond))` is the first statement of the then-branch and
`assert(!(aligned cond))` the first statement of the else-branch, which is
created when absent; when the condition is not aligned-divergent, the
branches carry only the transformed children plus the reconciliation
updates — no such assertion is inserted. -/
theorem if_branch_assertions (fuel : Nat) (st : TState)
    (cond : CExpr) (thenB : List CStmt) (elseB : Option (List CStmt))
    (h0 : st.loopLevel = 0) :
    transformStmt (fuel + 1) st (.sif cond thenB elseB) =
      (let pc1 := updatePC st.enableShadow st.pc st.ts cond
       let tRes := transformBlock fuel { st with pc := pc1 } thenB
       let fRes :=
         match elseB with
         | some l => transformBlock fuel { tRes.1 with ts := st.ts } l
         | none => ({ tRes.1 with ts := st.ts }, ([] : List CStmt))
       let merged := mergeTS fRes.1.ts tRes.1.ts
       let divergent := isAlignedDivergent merged cond
       let shadowPart : List CStmt :=
         if st.enableShadow ∧ pc1 ∧ ¬st.pc then
           let shadowVars := merged.filterMap fun p =>
             if p.2.shadow == "*" then some p.1 else none
           [.sif (replaceExpr merged false cond)
             (shadowBranchFilter merged shadowVars tRes.2)
             (match elseB with
              | some _ => some (shadowBranchFilter merged shadowVars fRes.2)
              | none => none)]
         else []
       ({ fRes.1 with ts := merged, pc := st.pc },
        .sif cond
          ((if divergent then
              [.assertAligned true (replaceExpr st.ts true cond)]
            else []) ++
           tRes.2 ++ instrument st.enableShadow pc1 tRes.1.ts merged)
          (some ((if divergent then
              [.assertAligned false (replaceExpr fRes.1.ts true cond)]
            else []) ++
           fRes.2 ++ instrument st.enableShadow pc1 fRes.1.ts merged))
        :: shadowPart)) := by
  simp only [transformStmt, h0]
  rfl

/-- Witness for C2: an if on a tracked variable, with no else-branch in the
source, gets the aligned assertion at the top of the then-branch and a
created else-branch holding the negated assertion. -/
theorem if_branch_assertions_witness :
    transformStmt 1
      { ts := [("x", ⟨"*", "0", "int", false⟩)], pc := false, loopLevel := 0,
        params := [], randomVars := [], enableShadow := false, simpf := id,
        err := false }
      (.sif (.binOp ">" (.evar "x") (.const 0)) [] none) =
      ({ ts := [("x", ⟨"*", "0", "int", false⟩)], pc := false, loopLevel := 0,
         params := [], randomVars := [], enableShadow := false, simpf := id,
         err := false },
       [.sif (.binOp ">" (.evar "x") (.const 0))
         [.assertAligned true
           (.binOp ">" (.binOp "+" (.evar "x") (.evar "CHECKDP_ALIGNED_DISTANCE_x"))
             (.const 0))]
         (some [.assertAligned false
           (.binOp ">" (.binOp "+" (.evar "x") (.evar "CHECKDP_ALIGNED_DISTANCE_x"))
             (.const 0))])]) := by
  rw [if_branch_assertions 0
    { ts := [("x", ⟨"*", "0", "int", false⟩)], pc := false, loopLevel := 0,
      params := [], randomVars := [], enableShadow := false, simpf := id,
      err := false }
    (.binOp ">" (.evar "x") (.const 0)) [] none rfl]
  rfl

/-- C5 (counterexample): with shadow execution enabled, the transformer emits
the cost update `v_epsilon = ((selector_eta == ALIGNED) ? v_epsilon : 0) +
|aligned_eta| * (1/scale)` (base.py lines 251-257); under a SHADOW selector
this update replaces the previous cost by 0, so the updated value can be
strictly smaller than the previous `v_epsilon` — refuting that `v_epsilon`
never decreases across emitted updates when shadow execution is enabled. -/
theorem lap_cost_shadow_reset_counterexample :
    (transformStmt 1
      { ts := [], pc := false, loopLevel := 0, params := [], randomVars := [],
        enableShadow := true, simpf := id, err := false }
      (.declLap "eta" (.const 1))).2.filter isEpsUpdate =
      [.epsUpdate true "eta" (lapCostString "eta" (.const 1))] ∧
    epsUpdateValue true Constants.SELECT_SHADOW 5 (lapCostTerm 1 1) < 5 := by
  constructor
  · rfl
  · norm_num [epsUpdateValue, lapCostTerm, Constants.SELECT_ALIGNED,
      Constants.SELECT_SHADOW]

/-- C5 (amended): every cost assignment the transformer emits for a sample at
loop level 0 is the single statement `v_epsilon = prev + |aligned_eta| *
(1/scale)`; the added term is non-negative, and `prev` is the previous
`v_epsilon` whenever shadow execution is disabled or the sample's selector is
ALIGNED — in which case the value never decreases — while an enabled shadow
with a SHADOW selector resets the accumulator to the bare term. -/
theorem lap_cost_update (fuel : Nat) (st : TState) (name : String)
    (scale : CExpr)
    (h0 : st.loopLevel = 0)
    (hpc : ¬(st.enableShadow = true ∧ st.pc = true)) :
    (transformStmt (fuel + 1) st (.declLap name scale)).2.filter isEpsUpdate =
      [.epsUpdate st.enableShadow name (st.simpf (lapCostString name scale))] ∧
    ∀ (sel : Int) (v d s : ℚ), 0 < s →
      0 ≤ lapCostTerm d s ∧
      ((st.enableShadow = false ∨ sel = Constants.SELECT_ALIGNED) →
        v ≤ epsUpdateValue st.enableShadow sel v (lapCostTerm d s)) ∧
      (st.enableShadow = true → sel ≠ Constants.SELECT_ALIGNED →
        epsUpdateValue st.enableShadow sel v (lapCostTerm d s) = lapCostTerm d s) := by
  constructor
  · by_cases hsh : st.enableShadow = true
    · have hp : st.pc = false := by
        cases hb : st.pc
        · rfl
        · exact absurd ⟨hsh, hb⟩ hpc
      simp only [transformStmt, h0, hsh, hp]
      rfl
    · have hsh' : st.enableShadow = false := by
        cases hb : st.enableShadow
        · rfl
        · exact absurd hb hsh
      simp only [transformStmt, h0, hsh']
      rfl
  · intro sel v d s hs
    have hcost : 0 ≤ lapCostTerm d s := by
      unfold lapCostTerm
      have h1 : (0 : ℚ) ≤ |d| := abs_nonneg d
      have h2 : (0 : ℚ) ≤ 1 / s := by positivity
      exact mul_nonneg h1 h2
    refine ⟨hcost, ?_, ?_⟩
    · intro hsel
      unfold epsUpdateValue
      rcases hsel with h | h
      · rw [h]
        simp only [Bool.false_eq_true, if_false]
        linarith
      · by_cases hg : st.enableShadow = true
        · rw [hg, if_pos rfl, h, if_pos rfl]
          linarith
        · rw [if_neg]
          · linarith
          · simpa using hg
    · intro hg hne
      unfold epsUpdateValue
      rw [hg, if_pos rfl, if_neg hne, zero_add]

/-- Witness for C5 (amended) with shadow disabled: the emitted update is the
plain additive one and the value does not decrease. -/
theorem lap_cost_update_witness :
    (transformStmt 1
      { ts := [], pc := false, loopLevel := 0, params := [], randomVars := [],
        enableShadow := false, simpf := id, err := false }
      (.declLap "eta" (.const 2))).2.filter isEpsUpdate =
      [.epsUpdate false "eta" (lapCostString "eta" (.const 2))] ∧
    (5 : ℚ) ≤ epsUpdateValue false 0 5 (lapCostTerm 3 2) := by
  have h := lap_cost_update 0
    { ts := [], pc := false, loopLevel := 0, params := [], randomVars := [],
      enableShadow := false, simpf := id, err := false }
    "eta" (.const 2) rfl (by simp)
  exact ⟨h.1, (h.2 0 5 3 2 (by norm_num)).2.1 (Or.inl rfl)⟩

end Transform

namespace Post

mutual

/-- Accumulator lemma for the postprocessor traversal: visiting a statement
adds the depth-weighted in-loop sample count to the loops counter, and, at
sized-loop level 0, the outside-sample count to the constants counter. -/
theorem postVisitStmt_split (size : String) (lvl : Nat) (acc : Nat × Nat)
    (s : Transform.CStmt) :
    postVisitStmt size lvl acc s =
      (acc.1 + samplesWeighted size lvl s,
       acc.2 + (if lvl = 0 then samplesOutside size s else 0)) := by
  cases s with
  | declSample n =>
      by_cases h : lvl = 0
      · subst h
        simp [postVisitStmt, samplesWeighted, samplesOutside]
      · have hb : (lvl == 0) = false := by
          simpa using h
        simp [postVisitStmt, samplesWeighted, samplesOutside, hb, h]
  | swhile cond body =>
      simp only [postVisitStmt, samplesWeighted, samplesOutside]
      by_cases hm : mentionsId size cond = true
      · simp only [hm, if_true]
        rw [postVisitBlock_split]
        by_cases h : lvl = 0 <;> simp [h, Prod.ext_iff]
      · have hm2 : mentionsId size cond = false := by
          simpa using hm
        simp only [hm2, Bool.false_eq_true, if_false]
        rw [postVisitBlock_split]
  | sif cond thenB elseB =>
      cases elseB with
      | none =>
          simp only [postVisitStmt, samplesWeighted, samplesOutside]
          rw [postVisitBlock_split]
          by_cases h : lvl = 0 <;> simp [h, Prod.ext_iff]
      | some l =>
          simp only [postVisitStmt, samplesWeighted, samplesOutside]
          rw [postVisitBlock_split, postVisitBlock_split]
          by_cases h : lvl = 0 <;> simp [h, Prod.ext_iff] <;> omega
  | assign lhs rhs => simp [postVisitStmt, samplesWeighted, samplesOutside]
  | declPlain n => simp [postVisitStmt, samplesWeighted, samplesOutside]
  | declInit n i => simp [postVisitStmt, samplesWeighted, samplesOutside]
  | declLap n sc => simp [postVisitStmt, samplesWeighted, samplesOutside]
  | outputCall a => simp [postVisitStmt, samplesWeighted, samplesOutside]
  | assertAligned p c => simp [postVisitStmt, samplesWeighted, samplesOutside]
  | assertZero d => simp [postVisitStmt, samplesWeighted, samplesOutside]
  | distUpdate v n d => simp [postVisitStmt, samplesWeighted, samplesOutside]
  | shadowAsgn t e => simp [postVisitStmt, samplesWeighted, samplesOutside]
  | selectorSwitch eta us => simp [postVisitStmt, samplesWeighted, samplesOutside]
  | randomDistAsgn eta => simp [postVisitStmt, samplesWeighted, samplesOutside]
  | epsUpdate g eta c => simp [postVisitStmt, samplesWeighted, samplesOutside]
  | sampleIncr => simp [postVisitStmt, samplesWeighted, samplesOutside]
  | vEpsilonDecl => simp [postVisitStmt, samplesWeighted, samplesOutside]
  | sampleIndexDecl => simp [postVisitStmt, samplesWeighted, samplesOutside]
  | distVarDecl v n => simp [postVisitStmt, samplesWeighted, samplesOutside]
  | returnEps => simp [postVisitStmt, samplesWeighted, samplesOutside]

/-- Statement-list version of `postVisitStmt_split`. -/
theorem postVisitBlock_split (size : String) (lvl : Nat) (acc : Nat × Nat)
    (l : List Transform.CStmt) :
    postVisitBlock size lvl acc l =
      (acc.1 + samplesWeightedBlock size lvl l,
       acc.2 + (if lvl = 0 then samplesOutsideBlock size l else 0)) := by
  cases l with
  | nil => simp [postVisitBlock, samplesWeightedBlock, samplesOutsideBlock]
  | cons s rest =>
      simp only [postVisitBlock, samplesWeightedBlock, samplesOutsideBlock]
      rw [postVisitStmt_split, postVisitBlock_split]
      by_cases h : lvl = 0 <;> simp [h, Prod.ext_iff] <;> omega

end

/-- C6: the sample-array-size function returned by `PostProcessor.process`
satisfies `sample_size(query_size) = loops * query_size + constants`, where
`constants` is the number of sampling statements occurring outside every loop
whose condition mentions the size parameter and `loops` accounts for the
sampling statements inside such loops, each weighted by its nesting depth
(postprocess.py lines 60-84). -/
theorem sample_size_formula (size : String) (body : List Transform.CStmt)
    (querySize : Nat) :
    sampleSizeClosure size body querySize =
      samplesWeightedBlock size 0 body * querySize +
        samplesOutsideBlock size body := by
  unfold sampleSizeClosure
  rw [postVisitBlock_split]
  simp

end Post

namespace RandomDistance

/-- Slot accounting of one `_generate_random_distance` call: it appends a
block of tags of length `2 ^ |conds| * (|vars| + 1)`, of which `2 ^ |conds|`
are Selector tags exactly when generating a selector template; the emitted
template references exactly the appended block of slots, with one leaf per
condition valuation. -/
theorem genRD_spec (sel : Bool) (vars : List String) :
    ∀ (conds : List String) (tags : List AlignmentIndexType),
    ∃ delta,
      (generateRandomDistance conds vars tags sel).2 = tags ++ delta ∧
      delta.length = 2 ^ conds.length * (vars.length + 1) ∧
      delta.count AlignmentIndexType.Selector = (if sel then 2 ^ conds.length else 0) ∧
      refIndices (generateRandomDistance conds vars tags sel).1 =
        List.range' tags.length delta.length ∧
      leafCount (generateRandomDistance conds vars tags sel).1 = 2 ^ conds.length := by
  intro conds
  induction conds with
  | nil =>
      intro tags
      refine ⟨(if sel then AlignmentIndexType.Selector else AlignmentIndexType.Constant) ::
        vars.map fun _ => AlignmentIndexType.Variable, ?_, ?_, ?_, ?_, ?_⟩
      · simp [generateRandomDistance]
      · simp
      · have hnot : AlignmentIndexType.Selector ∉ vars.map fun _ => AlignmentIndexType.Variable := by
          simp
        rw [List.count_cons]
        rw [List.count_eq_zero.mpr hnot]
        cases sel <;> simp
      · simp [generateRandomDistance, refIndices]
      · simp [generateRandomDistance, leafCount]
  | cons c rest ih =>
      intro tags
      obtain ⟨dl, hdl, hdlLen, hdlCount, hdlRefs, hdlLeaf⟩ := ih tags
      obtain ⟨dr, hdr, hdrLen, hdrCount, hdrRefs, hdrLeaf⟩ :=
        ih (generateRandomDistance rest vars tags sel).2
      refine ⟨dl ++ dr, ?_, ?_, ?_, ?_, ?_⟩
      · show (generateRandomDistance (c :: rest) vars tags sel).2 = _
        simp only [generateRandomDistance]
        rw [hdr, hdl, List.append_assoc]
      · simp only [List.length_append, hdlLen, hdrLen, pow_succ, List.length_cons]
        ring
      · simp only [List.count_append, hdlCount, hdrCount, pow_succ]
        cases sel
        · simp
        · simp
          ring
      · show refIndices (RDTemplate.node c
          (generateRandomDistance rest vars tags sel).1
          (generateRandomDistance rest vars (generateRandomDistance rest vars tags sel).2 sel).1) = _
        simp only [refIndices]
        rw [hdlRefs, hdrRefs, hdl, List.length_append, hdlLen, hdrLen]
        rw [List.range'_append_1]
        simp [List.length_append, hdlLen, hdrLen]
      · show leafCount (RDTemplate.node c
          (generateRandomDistance rest vars tags sel).1
          (generateRandomDistance rest vars (generateRandomDistance rest vars tags sel).2 sel).1) = _
        simp only [leafCount, hdlLeaf, hdrLeaf, pow_succ, List.length_cons]
        ring


/-- Unfolding of `generate_macros` on one template with shadow mode off. -/
theorem generateMacros_cons_noShadow (eta : String) (conds vars : List String)
    (rest : List (String × List String × List String))
    (tags : List AlignmentIndexType) :
    generateMacros false ((eta, conds, vars) :: rest) tags =
      (⟨Constants.RANDOM_DISTANCE ++ "_" ++ eta, false,
          .tmpl (generateRandomDistance conds vars tags false).1⟩ ::
        (generateMacros false rest (generateRandomDistance conds vars tags false).2).1,
       (generateMacros false rest (generateRandomDistance conds vars tags false).2).2) := by
  simp [generateMacros]

/-- Unfolding of `generate_macros` on a zero-condition template in shadow
mode: the selector macro collapses to the SELECT_ALIGNED literal and consumes
no slot. -/
theorem generateMacros_cons_shadow_nil (eta : String) (vars : List String)
    (rest : List (String × List String × List String))
    (tags : List AlignmentIndexType) :
    generateMacros true ((eta, [], vars) :: rest) tags =
      (⟨Constants.SELECTOR ++ "_" ++ eta, true, .selectAligned⟩ ::
       ⟨Constants.RANDOM_DISTANCE ++ "_" ++ eta, false,
          .tmpl (generateRandomDistance [] vars tags false).1⟩ ::
        (generateMacros true rest (generateRandomDistance [] vars tags false).2).1,
       (generateMacros true rest (generateRandomDistance [] vars tags false).2).2) := by
  simp [generateMacros]

/-- Unfolding of `generate_macros` on a template with conditions in shadow
mode: the selector template is generated first, then the alignment
template. -/
theorem generateMacros_cons_shadow (eta : String) (conds vars : List String)
    (rest : List (String × List String × List String))
    (tags : List AlignmentIndexType) (hc : conds.length ≠ 0) :
    generateMacros true ((eta, conds, vars) :: rest) tags =
      (⟨Constants.SELECTOR ++ "_" ++ eta, true,
          .tmpl (generateRandomDistance conds [] tags true).1⟩ ::
       ⟨Constants.RANDOM_DISTANCE ++ "_" ++ eta, false,
          .tmpl (generateRandomDistance conds vars
            (generateRandomDistance conds [] tags true).2 false).1⟩ ::
        (generateMacros true rest (generateRandomDistance conds vars
          (generateRandomDistance conds [] tags true).2 false).2).1,
       (generateMacros true rest (generateRandomDistance conds vars
         (generateRandomDistance conds [] tags true).2 false).2).2) := by
  have hcb : (conds.length == 0) = false := by simpa using hc
  simp [generateMacros, hcb]


/-- Slot accounting of `generate_macros` relative to a starting tag list. -/
theorem generateMacros_spec (sh : Bool)
    (templates : List (String × List String × List String)) :
    ∀ tags : List AlignmentIndexType,
    ∃ added,
      (generateMacros sh templates tags).2 = tags ++ added ∧
      ((generateMacros sh templates tags).1.flatMap fun e => macroRefs e.body) =
        List.range' tags.length added.length ∧
      added.count AlignmentIndexType.Selector =
        (((generateMacros sh templates tags).1.filter fun e => e.isSel).map
          fun e => macroLeaves e.body).sum ∧
      added.count AlignmentIndexType.Selector =
        (templates.map fun t =>
          if sh = true ∧ t.2.1.length ≠ 0 then 2 ^ t.2.1.length else 0).sum := by
  induction templates with
  | nil =>
      intro tags
      exact ⟨[], by simp [generateMacros], by simp [generateMacros],
        by simp [generateMacros], by simp [generateMacros]⟩
  | cons t rest ih =>
      obtain ⟨eta, conds, vars⟩ := t
      intro tags
      by_cases hsh : sh = true
      · subst hsh
        by_cases hc : conds.length = 0
        · have hcnil : conds = [] := List.length_eq_zero.mp hc
          subst hcnil
          obtain ⟨d2, hd2, hd2Len, hd2Count, hd2Refs, _⟩ :=
            genRD_spec false vars [] tags
          obtain ⟨d3, hd3, hd3Refs, hd3Count, hd3Sum⟩ :=
            ih (generateRandomDistance [] vars tags false).2
          refine ⟨d2 ++ d3, ?_, ?_, ?_, ?_⟩
          · rw [generateMacros_cons_shadow_nil, hd3, hd2, List.append_assoc]
          · rw [generateMacros_cons_shadow_nil]
            simp only [List.flatMap_cons]
            rw [hd3Refs, hd2]
            simp only [macroRefs, List.nil_append, List.length_append]
            rw [hd2Refs, List.range'_append_1]
            congr 1
            omega
          · rw [generateMacros_cons_shadow_nil]
            simp [List.count_append, hd2Count, hd3Count, macroLeaves]
          · simp [List.count_append, hd2Count, hd3Sum]
        · obtain ⟨dS, hdS, hdSLen, hdSCount, hdSRefs, hdSLeaf⟩ :=
            genRD_spec true ([] : List String) conds tags
          obtain ⟨d2, hd2, hd2Len, hd2Count, hd2Refs, _⟩ :=
            genRD_spec false vars conds (generateRandomDistance conds [] tags true).2
          obtain ⟨d3, hd3, hd3Refs, hd3Count, hd3Sum⟩ :=
            ih (generateRandomDistance conds vars
              (generateRandomDistance conds [] tags true).2 false).2
          refine ⟨dS ++ (d2 ++ d3), ?_, ?_, ?_, ?_⟩
          · rw [generateMacros_cons_shadow eta conds vars rest tags hc,
              hd3, hd2, hdS, List.append_assoc, List.append_assoc]
          · rw [generateMacros_cons_shadow eta conds vars rest tags hc]
            simp only [List.flatMap_cons]
            rw [hd3Refs]
            simp only [macroRefs]
            rw [hd2Refs, hdSRefs, hd2, hdS]
            simp only [List.length_append]
            rw [List.range'_append_1, List.range'_append_1]
            congr 1
            omega
          · rw [generateMacros_cons_shadow eta conds vars rest tags hc]
            simp [List.count_append, hdSCount, hd2Count, hd3Count, macroLeaves, hdSLeaf]
          · have hne : conds ≠ [] := by
              intro h
              exact hc (by simp [h])
            simp [List.count_append, hdSCount, hd2Count, hd3Sum, hne]
      · have hshF : sh = false := by
          cases sh
          · rfl
          · exact absurd rfl hsh
        subst hshF
        obtain ⟨d2, hd2, hd2Len, hd2Count, hd2Refs, _⟩ :=
          genRD_spec false vars conds tags
        obtain ⟨d3, hd3, hd3Refs, hd3Count, hd3Sum⟩ :=
          ih (generateRandomDistance conds vars tags false).2
        refine ⟨d2 ++ d3, ?_, ?_, ?_, ?_⟩
        · rw [generateMacros_cons_noShadow, hd3, hd2, List.append_assoc]
        · rw [generateMacros_cons_noShadow]
          simp only [List.flatMap_cons]
          rw [hd3Refs, hd2]
          simp only [macroRefs, List.nil_append, List.length_append]
          rw [hd2Refs, List.range'_append_1]
          congr 1
          omega
        · rw [generateMacros_cons_noShadow]
          simp [List.count_append, hd2Count, hd3Count, macroLeaves]
        · simp [List.count_append, hd2Count, hd3Sum]

/-- C7: for every generated alignment template the tag list has exactly one
tag per emitted slot — the slots referenced by the emitted macros are
exactly 0, ..., N-1 for a tag list of length N — and the number of Selector
tags equals the number of conditional leaves of the emitted SELECTOR_*
templates; a selector template with zero conditions collapses to the literal
aligned value and contributes no Selector slot (so only templates with a
non-empty condition set contribute, 2 ^ |conds| each)
(random_distance.py lines 21-37 and 184-209). -/
theorem alignment_slot_tagging (sh : Bool)
    (templates : List (String × List String × List String)) :
    ((generateMacros sh templates []).1.flatMap fun e => macroRefs e.body) =
      List.range (generateMacros sh templates []).2.length ∧
    (generateMacros sh templates []).2.count AlignmentIndexType.Selector =
      (((generateMacros sh templates []).1.filter fun e => e.isSel).map
        fun e => macroLeaves e.body).sum ∧
    (generateMacros sh templates []).2.count AlignmentIndexType.Selector =
      (templates.map fun t =>
        if sh = true ∧ t.2.1.length ≠ 0 then 2 ^ t.2.1.length else 0).sum := by
  obtain ⟨added, h1, h2, h3, h4⟩ := generateMacros_spec sh templates []
  rw [h1]
  simp only [List.nil_append]
  refine ⟨?_, h3, h4⟩
  rw [h2, List.range_eq_range']
  simp

end RandomDistance


namespace Preprocess

/-- Divisibility of each member into the folded lcm. -/
theorem foldr_lcm_dvd_of_mem {x : ℕ} {l : List ℕ} (h : x ∈ l) :
    x ∣ l.foldr Nat.lcm 1 := by
  induction l with
  | nil => cases h
  | cons a t ih =>
      rcases List.mem_cons.mp h with rfl | hmem
      · exact Nat.dvd_lcm_left _ _
      · exact dvd_trans (ih hmem) (Nat.dvd_lcm_right _ _)

/-- Minimality of the folded lcm. -/
theorem foldr_lcm_dvd {n : ℕ} {l : List ℕ} (h : ∀ x ∈ l, x ∣ n) :
    l.foldr Nat.lcm 1 ∣ n := by
  induction l with
  | nil => exact one_dvd n
  | cons a t ih =>
      exact Nat.lcm_dvd (h a (List.mem_cons_self a t))
        (ih fun x hx => h x (List.mem_cons_of_mem a hx))

/-- C4: the preprocessor computes L as the least common multiple of the
denominators of 1/scale over all Lap(scale) calls together with the
denominator of the goal (divisibility and minimality below); when L is not 1
it replaces every noise scale s by s/L and the goal g by g*L, and when L is 1
it leaves scales and goal unchanged (preprocess.py lines 185-197). -/
theorem scaling_lcm_spec (scales : List ℚ) (goal : ℚ) :
    (∀ s ∈ scales, (1 / s).den ∣ scaleLcm scales goal) ∧
    goal.den ∣ scaleLcm scales goal ∧
    (∀ n : ℕ, (∀ s ∈ scales, (1 / s).den ∣ n) → goal.den ∣ n →
      scaleLcm scales goal ∣ n) ∧
    (scaleLcm scales goal = 1 → processScaling scales goal = (scales, goal)) ∧
    (scaleLcm scales goal ≠ 1 →
      processScaling scales goal =
        (scales.map fun s => s / (scaleLcm scales goal : ℚ),
         goal * (scaleLcm scales goal : ℚ))) := by
  refine ⟨?_, ?_, ?_, ?_, ?_⟩
  · intro s hs
    apply foldr_lcm_dvd_of_mem
    exact List.mem_append.mpr (Or.inl (List.mem_map.mpr ⟨s, hs, rfl⟩))
  · apply foldr_lcm_dvd_of_mem
    exact List.mem_append.mpr (Or.inr (List.mem_singleton.mpr rfl))
  · intro n h1 h2
    apply foldr_lcm_dvd
    intro x hx
    rcases List.mem_append.mp hx with hx | hx
    · obtain ⟨s, hs, rfl⟩ := List.mem_map.mp hx
      exact h1 s hs
    · rw [List.mem_singleton.mp hx]
      exact h2
  · intro h
    simp [processScaling, h]
  · intro h
    simp [processScaling, h]

/-- Witness for C4 on scales 2/3 and 5 with goal 1/3: the lcm of the
denominators 2, 5, 3 is 30, the scales are divided by it and the goal
multiplied. -/
theorem scaling_lcm_spec_witness :
    processScaling [(2 : ℚ)/3, 5] (1/3) = ([(1 : ℚ)/45, 1/6], 10) := by
  have hL : scaleLcm [(2 : ℚ)/3, 5] (1/3) = 30 := by
    norm_num [scaleLcm]
  have h := (scaling_lcm_spec [(2 : ℚ)/3, 5] (1/3)).2.2.2.2 (by rw [hL]; norm_num)
  rw [h, hL]
  norm_num

end Preprocess

namespace Memory

/-- C10: `Transformer.transform` never mutates the function-definition node
it is given — the transformation operates on a deep copy placed at a fresh
address, so every pre-existing address of the object store (in particular the
caller's node with its body, declarations and parameters) holds the same
value after the call (base.py lines 144-176, 394-400). -/
theorem transform_preserves_caller (fuel : Nat) (sh : Bool)
    (simpf : String → String) (ts0 : Transform.TypeSystem)
    (h : Heap) (a : Nat) :
    (transformOnHeap fuel sh simpf ts0 h a).2 = h.length ∧
    ∀ i, i < h.length →
      (transformOnHeap fuel sh simpf ts0 h a).1[i]? = h[i]? := by
  refine ⟨rfl, ?_⟩
  intro i hi
  show ((h ++ [(h.getD a default)]).set h.length _)[i]? = h[i]?
  rw [List.getElem?_set_ne]
  · exact List.getElem?_append_left hi
  · omega

/-- Witness for C10 on a one-function store: the caller's node is unchanged
after the transform. -/
theorem transform_preserves_caller_witness :
    (transformOnHeap 1 false id []
      [⟨"f", ["q"], [Transform.CStmt.outputCall (Transform.CExpr.const 0)]⟩] 0).2 = 1 ∧
    (transformOnHeap 1 false id []
      [⟨"f", ["q"], [Transform.CStmt.outputCall (Transform.CExpr.const 0)]⟩] 0).1[0]? =
      some ⟨"f", ["q"], [Transform.CStmt.outputCall (Transform.CExpr.const 0)]⟩ := by
  have h := transform_preserves_caller 1 false id []
    [⟨"f", ["q"], [Transform.CStmt.outputCall (Transform.CExpr.const 0)]⟩] 0
  exact ⟨h.1, by rw [h.2 0 (by norm_num)]; rfl⟩

end Memory

end CheckDP
